import Mathlib

/-!
# Kickbase budget checker — shallow embedding of `src/index.ts`

This file embeds the authenticated-session budget-polling workflow of the
repository `kickbase-budget-checker` (single source file `src/index.ts`) and
proves properties of the embedded program.

The program is single-threaded and performs a fixed, bounded sequence of
HTTP exchanges per run.  We model the outside world (the Kickbase API and
the Twilio messaging client, plus the current wall-clock time) as a record
`World` of deterministic responses; the mutable module-level globals
(`authToken`, `tokenExpiry`, `cachedLeagues`) become an explicit `AppState`
threaded through the functions.  Each embedded function returns, alongside
its result, the final state, the list of network requests it issued (in
order), and the console lines it emitted (modelled only for the lines the
specification refers to; general console formatting is out of scope).

Timestamps are integers (milliseconds, as `Date.getTime()` values); budget
values are integers, exactly as in the source.  JavaScript truthiness is
modelled faithfully where the source relies on it: `!authToken` is true for
both `null` and the empty string, `if (loginData.srvl)` accepts a present
empty array, and `data.leagues || ...` prefers a present (even empty) array.
-/

namespace KickbaseChecker

/-- League record; fields as in the `KickbaseLeague` interface of
`src/index.ts` (lines 60–71). -/
structure KickbaseLeague where
  id : String
  name : String
  creator : String
  creatorId : String
  creation : String
  maxMembers : Int
  adminCount : Int
  memberCount : Int
  isCommissioner : Bool
  cpi : String
deriving Repr, DecidableEq

/-- The fields of the `KickbaseLoginResponse` interface the program reads:
the token `tkn`, its expiry `tknex` (here already parsed to a timestamp, as
`new Date(loginData.tknex).getTime()`), and the optional league list `srvl`.
The user profile `u` is never consulted and is omitted. -/
structure KickbaseLoginResponse where
  tkn : String
  tknex : Int
  srvl : Option (List KickbaseLeague)
deriving Repr, DecidableEq

/-- Outcome of one HTTP exchange as the calling code observes it:
a parsed successful body, a non-ok response (status, statusText, body text),
or a thrown transport/parse error carrying a message. -/
inductive FetchOutcome (α : Type) where
  | ok (data : α)
  | httpError (status : Nat) (statusText : String) (body : String)
  | netThrow (msg : String)
deriving Repr, DecidableEq

/-- Response body shape of the leagues-listing endpoint: the code accepts
either an object with an optional `leagues` field or a bare array
(`src/index.ts` lines 191–194). -/
inductive LeaguesPayload where
  | wrapped (leagues : Option (List KickbaseLeague))
  | bare (leagues : List KickbaseLeague)
deriving Repr, DecidableEq

/-- Budget endpoint response body: `{ pbas?, b?, bs? }`
(`src/index.ts` lines 262–266). -/
structure BudgetPayload where
  pbas : Option Int
  b : Option Int
  bs : Option Int
deriving Repr, DecidableEq

/-- The deterministic outside world of one run: the current time and the
responses of each upstream endpoint (the budget endpoint is keyed by the
league id appearing in the URL) and of the Twilio send (whose success value
is the message SID). -/
structure World where
  now : Int
  loginResp : FetchOutcome KickbaseLoginResponse
  leaguesResp : FetchOutcome LeaguesPayload
  budgetResp : String → FetchOutcome BudgetPayload
  sendResp : FetchOutcome String

/-- The module-level mutable globals of `src/index.ts` (lines 23–25):
`authToken`, `tokenExpiry` (a parsed timestamp), `cachedLeagues`. -/
structure AppState where
  authToken : Option String
  tokenExpiry : Option Int
  cachedLeagues : List KickbaseLeague
deriving Repr, DecidableEq

/-- The initial state of a fresh process: no token, no expiry, empty cache. -/
def initialState : AppState :=
  { authToken := none, tokenExpiry := none, cachedLeagues := [] }

/-- One outbound network request, as recorded in a run trace. -/
inductive NetReq where
  | login
  | leaguesList
  | budget (leagueId : String)
  | twilioSend (contentVariables : List (String × String))
deriving Repr, DecidableEq

/-- Result of running one embedded function: the value or thrown error
(errors are JavaScript `Error` values, modelled by their message string),
the final global state, the network requests issued, and the modelled
console lines. -/
structure Eff (α : Type) where
  result : Except String α
  state : AppState
  calls : List NetReq
  log : List String
deriving Repr

/-- The alert threshold constant `KICKBASE_BUDGET_THRESHOLD` (line 20). -/
def KICKBASE_BUDGET_THRESHOLD : Int := 0

/-- `isTokenValid` (lines 132–140).  `!authToken` is JavaScript truthiness:
true for `null` and for the empty string.  `!tokenExpiry` only catches
`null` (a `Date` object is always truthy).  The comparison
`tokenExpiry > fiveMinutesFromNow` compares timestamps, with
`fiveMinutesFromNow = now + 5 * 60 * 1000`. -/
def isTokenValid (authToken : Option String) (tokenExpiry : Option Int)
    (now : Int) : Bool :=
  match authToken, tokenExpiry with
  | some t, some ex => (t != "") && decide (now + 5 * 60 * 1000 < ex)
  | _, _ => false

/-- `loginToKickbase` (lines 77–127).  On an ok response it assigns
`authToken` and `tokenExpiry`, and replaces `cachedLeagues` when `srvl` is
present (`if (loginData.srvl)` — a present empty array is truthy and does
replace the cache).  On a non-ok response it throws
`Login failed: {status} {statusText}` after logging the body; a transport
error is logged and rethrown unchanged.  In every failure case no global is
assigned. -/
def loginToKickbase (w : World) (s : AppState) : Eff KickbaseLoginResponse :=
  match w.loginResp with
  | .ok d =>
      { result := .ok d
        state :=
          { authToken := some d.tkn
            tokenExpiry := some d.tknex
            cachedLeagues :=
              match d.srvl with
              | some ls => ls
              | none => s.cachedLeagues }
        calls := [.login]
        log := ["Login successful!"] }
  | .httpError status statusText body =>
      { result := .error ("Login failed: " ++ toString status ++ " " ++ statusText)
        state := s
        calls := [.login]
        log := ["Login error response: " ++ body] }
  | .netThrow msg =>
      { result := .error msg
        state := s
        calls := [.login]
        log := ["Failed to login to Kickbase: " ++ msg] }

/-- `ensureAuthenticated` (lines 145–157): a no-op when the current token is
valid, otherwise a login (whose error, after being logged, is rethrown
unchanged). -/
def ensureAuthenticated (w : World) (s : AppState) : Eff Unit :=
  if isTokenValid s.authToken s.tokenExpiry w.now then
    { result := .ok (), state := s, calls := [], log := ["Using existing valid token"] }
  else
    let e := loginToKickbase w s
    { result := e.result.map fun _ => ()
      state := e.state, calls := e.calls, log := e.log }

/-- The league extraction
`data.leagues || (Array.isArray(data) ? data : [])` (lines 192–194): a
present `leagues` array (even empty) wins, a bare array is used as is, and
an object without a `leagues` field yields the empty list. -/
def extractLeagues : LeaguesPayload → List KickbaseLeague
  | .wrapped (some ls) => ls
  | .wrapped none => []
  | .bare ls => ls

/-- `getKickbaseLeagues` (lines 161–212).  It first awaits
`ensureAuthenticated()`; then returns the cached leagues when non-empty;
otherwise it probes the endpoint list `["/v4/leagues"]` (a single
endpoint): an ok response with a non-empty extracted list is cached and
returned, and every other outcome of the probe (empty list, non-ok status,
thrown transport error — the latter two only logged inside the loop) falls
through to `throw new Error("Could not fetch leagues from any known
endpoint")`. -/
def getKickbaseLeagues (w : World) (s : AppState) : Eff (List KickbaseLeague) :=
  let a := ensureAuthenticated w s
  match a.result with
  | .error e => { result := .error e, state := a.state, calls := a.calls, log := a.log }
  | .ok _ =>
    let s1 := a.state
    if s1.cachedLeagues.length > 0 then
      { result := .ok s1.cachedLeagues, state := s1, calls := a.calls
        log := a.log ++ ["Using cached leagues"] }
    else
      match w.leaguesResp with
      | .ok data =>
          let leagues := extractLeagues data
          if leagues.length > 0 then
            { result := .ok leagues
              state := { s1 with cachedLeagues := leagues }
              calls := a.calls ++ [.leaguesList]
              log := a.log }
          else
            { result := .error "Could not fetch leagues from any known endpoint"
              state := s1, calls := a.calls ++ [.leaguesList], log := a.log }
      | .httpError status statusText body =>
          { result := .error "Could not fetch leagues from any known endpoint"
            state := s1, calls := a.calls ++ [.leaguesList]
            log := ["Endpoint failed: " ++ toString status ++ " " ++ statusText ++ " - " ++ body] }
      | .netThrow msg =>
          { result := .error "Could not fetch leagues from any known endpoint"
            state := s1, calls := a.calls ++ [.leaguesList]
            log := ["Error trying endpoint: " ++ msg] }

/-- `getKickbaseBudget` (lines 218–275).  It awaits `ensureAuthenticated()`
and `getKickbaseLeagues()`, rejects an empty league list
(`No leagues found for user`) and an absent first element
(`No primary league found`; a league object is never falsy, so this models
`!leagues[0]` as the out-of-bounds case), then fetches
`/v4/leagues/{id}/me/budget` for the first league and returns
`budgetData.b || 0` (an absent — or zero — field yields `0`).  A non-ok
budget response throws `Failed to get budget data: {status} {statusText}`;
the surrounding try/catch logs and rethrows every error unchanged. -/
def getKickbaseBudget (w : World) (s : AppState) : Eff Int :=
  let a := ensureAuthenticated w s
  match a.result with
  | .error e => { result := .error e, state := a.state, calls := a.calls, log := a.log }
  | .ok _ =>
    let g := getKickbaseLeagues w a.state
    let calls0 := a.calls ++ g.calls
    let log0 := a.log ++ g.log
    match g.result with
    | .error e => { result := .error e, state := g.state, calls := calls0, log := log0 }
    | .ok leagues =>
      if leagues.length = 0 then
        { result := .error "No leagues found for user"
          state := g.state, calls := calls0, log := log0 }
      else
        match leagues.head? with
        | none =>
            { result := .error "No primary league found"
              state := g.state, calls := calls0, log := log0 }
        | some primaryLeague =>
            match w.budgetResp primaryLeague.id with
            | .ok budgetData =>
                { result := .ok (budgetData.b.getD 0)
                  state := g.state
                  calls := calls0 ++ [.budget primaryLeague.id]
                  log := log0 }
            | .httpError status statusText _ =>
                { result := .error ("Failed to get budget data: " ++ toString status ++ " " ++ statusText)
                  state := g.state
                  calls := calls0 ++ [.budget primaryLeague.id]
                  log := log0 }
            | .netThrow msg =>
                { result := .error msg
                  state := g.state
                  calls := calls0 ++ [.budget primaryLeague.id]
                  log := log0 }

/-- The template-variable formatting
`(budget / 1_000_000).toFixed(2) + "M"` of `sendWhatsappAlert` (line 290):
the budget in millions with two decimal places.  `Number.prototype.toFixed`
renders the sign of a negative input and then formats its absolute value
to the nearest multiple of `0.01` (ties upward), which for an integer
budget is exact rounding of `natAbs budget` to hundredths-of-a-million,
i.e. to the nearest multiple of `10^4`; we model that rounding exactly over
the integers. -/
def formatMillions (budget : Int) : String :=
  let sign := if budget < 0 then "-" else ""
  let hundredths := (budget.natAbs + 5000) / 10000
  let ip := hundredths / 100
  let fr := hundredths % 100
  let frStr := if fr < 10 then "0" ++ toString fr else toString fr
  sign ++ toString ip ++ "." ++ frStr ++ "M"

/-- The `contentVariables` object of the Twilio message (lines 289–292):
slot `"1"` is the formatted budget, slot `"2"` the fixed deadline time. -/
def contentVariables (budget : Int) : List (String × String) :=
  [("1", formatMillions budget), ("2", "20:30")]

/-- `sendWhatsappAlert` (lines 281–300).  It issues one
`client.messages.create` call; any thrown error (the Twilio client raises
API failures as exceptions) is caught and logged, so the function always
returns normally and never modifies the global state (it takes no state
argument because it touches none). -/
def sendWhatsappAlert (w : World) (budget : Int) :
    Except String Unit × List NetReq × List String :=
  match w.sendResp with
  | .ok sid =>
      (.ok (), [.twilioSend (contentVariables budget)],
        ["Message sent successfully. SID: " ++ sid])
  | .httpError status statusText _ =>
      (.ok (), [.twilioSend (contentVariables budget)],
        ["Error sending message: HTTP " ++ toString status ++ " " ++ statusText])
  | .netThrow msg =>
      (.ok (), [.twilioSend (contentVariables budget)],
        ["Error sending message: " ++ msg])

/-- `runCheck` (lines 305–338).  It resolves the budget; on success it
alerts exactly when `currentBudget < KICKBASE_BUDGET_THRESHOLD`; the
surrounding try/catch turns any thrown error into the console line
`Fatal error during budget check: ...` and returns normally (the process
exits without raising). -/
def runCheck (w : World) (s : AppState) : Eff Unit :=
  let b := getKickbaseBudget w s
  match b.result with
  | .ok currentBudget =>
      if currentBudget < KICKBASE_BUDGET_THRESHOLD then
        let r := sendWhatsappAlert w currentBudget
        { result := r.1, state := b.state, calls := b.calls ++ r.2.1
          log := b.log ++ ["ALERT: Budget is negative. Sending notification!"] ++ r.2.2 }
      else
        { result := .ok (), state := b.state, calls := b.calls
          log := b.log ++ ["Budget is positive. No alert necessary."] }
  | .error e =>
      { result := .ok (), state := b.state, calls := b.calls
        log := b.log ++ ["Fatal error during budget check: " ++ e] }

/-- Recognizer for notification-channel requests in a trace. -/
def isNotificationCall : NetReq → Bool
  | .twilioSend _ => true
  | _ => false

/-- The session-validity formula exactly as the specification words it
(§8: `isValid(token, expiry, now) == (token != null && expiry > now + 5min)`):
token present — without any emptiness restriction — and expiry strictly
later than now plus five minutes. -/
def isValidSpec (token : Option String) (expiry : Option Int) (now : Int) : Bool :=
  token.isSome &&
    (match expiry with
     | some ex => decide (now + 5 * 60 * 1000 < ex)
     | none => false)

end KickbaseChecker

namespace KickbaseChecker

/-! ## Trace helper lemmas -/

theorem loginToKickbase_calls (w : World) (s : AppState) :
    (loginToKickbase w s).calls = [NetReq.login] := by
  unfold loginToKickbase
  cases w.loginResp <;> rfl

theorem ensureAuthenticated_calls (w : World) (s : AppState) :
    ∀ c ∈ (ensureAuthenticated w s).calls, c = NetReq.login := by
  intro c hc
  unfold ensureAuthenticated at hc
  split at hc
  · simp at hc
  · rw [loginToKickbase_calls] at hc
    simpa using hc

theorem getKickbaseLeagues_calls (w : World) (s : AppState) :
    ∀ c ∈ (getKickbaseLeagues w s).calls,
      c = NetReq.login ∨ c = NetReq.leaguesList := by
  intro c hc
  have hA := ensureAuthenticated_calls w s
  unfold getKickbaseLeagues at hc
  rcases hE : ensureAuthenticated w s with ⟨r, st, calls, log⟩
  rw [hE] at hc hA
  dsimp at hc hA
  rcases r with e | u
  · exact Or.inl (hA c hc)
  · dsimp at hc
    split at hc
    · exact Or.inl (hA c hc)
    · rcases hL : w.leaguesResp with ⟨data⟩ | ⟨st1, st2, st3⟩ | ⟨msg⟩ <;> rw [hL] at hc <;> dsimp at hc
      · split at hc <;>
        · rcases List.mem_append.mp hc with h | h
          · exact Or.inl (hA c h)
          · simp at h; exact Or.inr h
      · rcases List.mem_append.mp hc with h | h
        · exact Or.inl (hA c h)
        · simp at h; exact Or.inr h
      · rcases List.mem_append.mp hc with h | h
        · exact Or.inl (hA c h)
        · simp at h; exact Or.inr h

theorem getKickbaseBudget_calls (w : World) (s : AppState) :
    ∀ c ∈ (getKickbaseBudget w s).calls,
      c = NetReq.login ∨ c = NetReq.leaguesList ∨ ∃ lid, c = NetReq.budget lid := by
  intro c hc
  have hA := ensureAuthenticated_calls w s
  unfold getKickbaseBudget at hc
  rcases hE : ensureAuthenticated w s with ⟨r, st, calls, log⟩
  rw [hE] at hc hA
  dsimp at hc hA
  rcases r with e | u
  · exact Or.inl (hA c hc)
  · dsimp at hc
    have hG := getKickbaseLeagues_calls w st
    rcases hGE : getKickbaseLeagues w st with ⟨gr, gst, gcalls, glog⟩
    rw [hGE] at hc hG
    dsimp at hc hG
    have hmem : c ∈ calls ++ gcalls →
        c = NetReq.login ∨ c = NetReq.leaguesList ∨ ∃ lid, c = NetReq.budget lid := by
      intro h
      rcases List.mem_append.mp h with h | h
      · exact Or.inl (hA c h)
      · rcases hG c h with h | h
        · exact Or.inl h
        · exact Or.inr (Or.inl h)
    rcases gr with e | leagues
    · exact hmem hc
    · dsimp at hc
      split at hc
      · exact hmem hc
      · split at hc
        · exact hmem hc
        · rcases hB : w.budgetResp _ with ⟨data⟩ | ⟨st1, st2, st3⟩ | ⟨msg⟩ <;>
            rw [hB] at hc <;> dsimp at hc <;>
            · rcases List.mem_append.mp hc with h | h
              · exact hmem h
              · simp at h; exact Or.inr (Or.inr ⟨_, h⟩)

theorem getKickbaseBudget_no_send (w : World) (s : AppState) :
    (getKickbaseBudget w s).calls.any isNotificationCall = false := by
  rw [List.any_eq_false]
  intro c hc
  rcases getKickbaseBudget_calls w s c hc with h | h | ⟨lid, h⟩ <;>
    subst h <;> simp [isNotificationCall]

theorem getKickbaseBudget_filter_no_send (w : World) (s : AppState) :
    (getKickbaseBudget w s).calls.filter isNotificationCall = [] := by
  rw [List.filter_eq_nil_iff]
  intro c hc
  rcases getKickbaseBudget_calls w s c hc with h | h | ⟨lid, h⟩ <;>
    subst h <;> simp [isNotificationCall]

theorem sendWhatsappAlert_fst (w : World) (b : Int) :
    (sendWhatsappAlert w b).1 = Except.ok () := by
  unfold sendWhatsappAlert
  cases w.sendResp <;> rfl

theorem sendWhatsappAlert_trace (w : World) (b : Int) :
    (sendWhatsappAlert w b).2.1 = [NetReq.twilioSend (contentVariables b)] := by
  unfold sendWhatsappAlert
  cases w.sendResp <;> rfl

theorem runCheck_result_ok (w : World) (s : AppState) :
    (runCheck w s).result = Except.ok () := by
  unfold runCheck
  rcases hB : getKickbaseBudget w s with ⟨r, st, calls, log⟩
  dsimp
  rcases r with e | b
  · rfl
  · dsimp
    split
    · exact sendWhatsappAlert_fst w b
    · rfl

theorem runCheck_error_calls (w : World) (s : AppState) (e : String)
    (h : (getKickbaseBudget w s).result = Except.error e) :
    (runCheck w s).calls = (getKickbaseBudget w s).calls ∧
    ("Fatal error during budget check: " ++ e) ∈ (runCheck w s).log := by
  unfold runCheck
  rcases hB : getKickbaseBudget w s with ⟨r, st, calls, log⟩
  rw [hB] at h
  dsimp at h ⊢
  subst h
  dsimp
  exact ⟨rfl, by simp⟩

/-! ## Concrete objects for witnesses and counterexamples -/

/-- A sample league record. -/
def testLeague : KickbaseLeague :=
  { id := "L1", name := "Test League", creator := "creator", creatorId := "c1"
    creation := "2024-01-01", maxMembers := 18, adminCount := 1
    memberCount := 8, isCommissioner := false, cpi := "1" }

/-- A world in which every endpoint succeeds: the login carries a league
list inline and the budget endpoint reports the given budget. -/
def okWorld (b : Int) : World :=
  { now := 0
    loginResp := .ok { tkn := "tok", tknex := 100000000, srvl := some [testLeague] }
    leaguesResp := .netThrow "offline"
    budgetResp := fun _ => .ok { pbas := none, b := some b, bs := none }
    sendResp := .ok "SM123" }

/-- A world in which the login endpoint rejects with HTTP 401. -/
def loginFailWorld : World :=
  { now := 0
    loginResp := .httpError 401 "Unauthorized" "invalid credentials"
    leaguesResp := .ok (.wrapped (some []))
    budgetResp := fun _ => .ok { pbas := none, b := none, bs := none }
    sendResp := .ok "SM123" }

/-- A world in which every network exchange throws. -/
def quietWorld : World :=
  { now := 0
    loginResp := .netThrow "offline"
    leaguesResp := .netThrow "offline"
    budgetResp := fun _ => .netThrow "offline"
    sendResp := .netThrow "offline" }

/-- A state with a non-empty league cache but no token. -/
def cacheOnlyState : AppState :=
  { authToken := none, tokenExpiry := none, cachedLeagues := [testLeague] }

/-- A state with a non-empty league cache and a session token valid far
beyond the five-minute margin at time 0. -/
def validCachedState : AppState :=
  { authToken := some "tok", tokenExpiry := some 100000000
    cachedLeagues := [testLeague] }

/-! ## C1 -/

/-- C1: the alert decision is a strict less-than comparison against the
threshold: for every world and state whose run resolves the budget to `b`,
a notification-channel call occurs iff `b < KICKBASE_BUDGET_THRESHOLD`
(the threshold constant, `0`). -/
theorem alert_iff_budget_below_threshold (w : World) (s : AppState) (b : Int)
    (h : (getKickbaseBudget w s).result = Except.ok b) :
    (runCheck w s).calls.any isNotificationCall = true ↔
      b < KICKBASE_BUDGET_THRESHOLD := by
  have hns := getKickbaseBudget_no_send w s
  unfold runCheck
  rcases hB : getKickbaseBudget w s with ⟨r, st, calls, log⟩
  rw [hB] at h hns
  dsimp at h hns ⊢
  subst h
  dsimp
  split
  next hlt =>
    simp only [List.any_append, hns, sendWhatsappAlert_trace]
    simp [isNotificationCall, hlt]
  next hge =>
    simp only [hns]
    simp [hge]

/-- Witness for C1: with budget `-1` the run issues a notification call,
with budget `0` it does not. -/
theorem alert_iff_budget_below_threshold_witness :
    (runCheck (okWorld (-1)) initialState).calls.any isNotificationCall = true ∧
    (runCheck (okWorld 0) initialState).calls.any isNotificationCall = false := by
  constructor
  · exact (alert_iff_budget_below_threshold (okWorld (-1)) initialState (-1)
      rfl).mpr (by decide)
  · have h := alert_iff_budget_below_threshold (okWorld 0) initialState 0 rfl
    have hne : ¬((runCheck (okWorld 0) initialState).calls.any isNotificationCall = true) :=
      fun ht => absurd (h.mp ht) (by decide)
    simpa using hne

/-! ## C2 -/

/-- Counterexample to C2 as stated: with the token present but equal to the
empty string and an expiry far beyond the margin, the code judges the
session invalid (`!authToken` is true for the empty string) while the
claimed formula — token present and expiry strictly later than now plus
five minutes — judges it valid. -/
theorem isTokenValid_empty_token_cex :
    isTokenValid (some "") (some 600001) 0 = false ∧
    isValidSpec (some "") (some 600001) 0 = true := by
  exact ⟨by decide, by decide⟩

/-- C2 (amended): token validity is a pure function of
(token, expiry, now): the session is judged valid iff the token is present
and non-empty and the expiry is present and strictly later than now plus
five minutes. -/
theorem isTokenValid_iff_present_nonempty (token : Option String)
    (expiry : Option Int) (now : Int) :
    isTokenValid token expiry now = true ↔
      (∃ t, token = some t ∧ t ≠ "") ∧
      (∃ ex, expiry = some ex ∧ now + 5 * 60 * 1000 < ex) := by
  unfold isTokenValid
  rcases token with _ | t <;> rcases expiry with _ | ex <;> simp

/-- Witness for C2 (amended): a non-empty token with a distant expiry is
valid at time 0. -/
theorem isTokenValid_iff_present_nonempty_witness :
    isTokenValid (some "tok") (some 600001) 0 = true :=
  (isTokenValid_iff_present_nonempty (some "tok") (some 600001) 0).mpr
    ⟨⟨"tok", rfl, by decide⟩, ⟨600001, rfl, by decide⟩⟩

/-! ## C3 -/

/-- Counterexample to C3 as stated: in a state whose league cache is
non-empty but whose session is invalid, `getKickbaseLeagues` first runs
`ensureAuthenticated`, which performs a login network call — here one that
fails, so the cached sequence is not even returned. -/
theorem getKickbaseLeagues_cached_cex :
    cacheOnlyState.cachedLeagues ≠ [] ∧
    (getKickbaseLeagues loginFailWorld cacheOnlyState).calls = [NetReq.login] ∧
    (getKickbaseLeagues loginFailWorld cacheOnlyState).result =
      Except.error "Login failed: 401 Unauthorized" := by
  exact ⟨by decide, rfl, rfl⟩

/-- C3 (amended): cache precedence holds for every state in which the
in-memory league cache is non-empty AND the session is valid:
`getKickbaseLeagues` then performs zero network calls, returns the cached
sequence unchanged, and leaves the state unchanged.  (When the session is
invalid the preceding `ensureAuthenticated` performs a login call first.) -/
theorem getKickbaseLeagues_cache_precedence (w : World) (s : AppState)
    (hvalid : isTokenValid s.authToken s.tokenExpiry w.now = true)
    (hcache : s.cachedLeagues ≠ []) :
    (getKickbaseLeagues w s).result = Except.ok s.cachedLeagues ∧
    (getKickbaseLeagues w s).calls = [] ∧
    (getKickbaseLeagues w s).state = s := by
  unfold getKickbaseLeagues ensureAuthenticated
  rw [hvalid]
  have hlen : s.cachedLeagues.length > 0 := List.length_pos.mpr hcache
  simp [hlen]

/-- Witness for C3 (amended): with a valid session and a cached league, no
network call is made even in a world where every endpoint throws. -/
theorem getKickbaseLeagues_cache_precedence_witness :
    (getKickbaseLeagues quietWorld validCachedState).result =
      Except.ok validCachedState.cachedLeagues ∧
    (getKickbaseLeagues quietWorld validCachedState).calls = [] ∧
    (getKickbaseLeagues quietWorld validCachedState).state = validCachedState :=
  getKickbaseLeagues_cache_precedence quietWorld validCachedState
    (by decide) (by decide)

/-! ## C4 -/

/-- C4: `ensureAuthenticated` is idempotent with respect to network
activity.  Starting from an invalid session, a successful first call
performs exactly one network call (the login); when the resulting session
is still valid, the second call performs none and is an observable no-op:
same state, ok result, no network calls. -/
theorem ensureAuthenticated_idempotent (w : World) (s s1 : AppState)
    (hinvalid : isTokenValid s.authToken s.tokenExpiry w.now = false)
    (hok : (ensureAuthenticated w s).result = Except.ok ())
    (hs1 : s1 = (ensureAuthenticated w s).state)
    (hvalid : isTokenValid s1.authToken s1.tokenExpiry w.now = true) :
    (ensureAuthenticated w s).calls = [NetReq.login] ∧
    ensureAuthenticated w s1 =
      { result := Except.ok (), state := s1, calls := []
        log := ["Using existing valid token"] } := by
  constructor
  · unfold ensureAuthenticated
    rw [hinvalid]
    simp [loginToKickbase_calls]
  · unfold ensureAuthenticated
    rw [hvalid]
    simp

/-- Witness for C4: from the fresh state, the first call logs in once and
the second call is a no-op. -/
theorem ensureAuthenticated_idempotent_witness :
    (ensureAuthenticated (okWorld 5) initialState).calls = [NetReq.login] ∧
    ensureAuthenticated (okWorld 5) (ensureAuthenticated (okWorld 5) initialState).state =
      { result := Except.ok ()
        state := (ensureAuthenticated (okWorld 5) initialState).state
        calls := []
        log := ["Using existing valid token"] } :=
  ensureAuthenticated_idempotent (okWorld 5) initialState
    (ensureAuthenticated (okWorld 5) initialState).state
    (by decide) rfl rfl (by decide)

/-! ## C5 -/

/-- C5: login failure is atomic.  Whenever the login exchange does not
return a successful response — a non-success HTTP status or a thrown
transport error — the state (token, expiry and league cache) is left
unchanged and the call fails: on an HTTP failure the thrown error carries
the upstream status and the response body is emitted to the diagnostic log;
on a transport failure the upstream error is rethrown unchanged. -/
theorem loginToKickbase_failure_atomic (w : World) (s : AppState)
    (h : ∀ d, w.loginResp ≠ FetchOutcome.ok d) :
    (loginToKickbase w s).state = s ∧
    (∀ status statusText body,
      w.loginResp = FetchOutcome.httpError status statusText body →
        (loginToKickbase w s).result =
          Except.error ("Login failed: " ++ toString status ++ " " ++ statusText) ∧
        ("Login error response: " ++ body) ∈ (loginToKickbase w s).log) ∧
    (∀ msg, w.loginResp = FetchOutcome.netThrow msg →
        (loginToKickbase w s).result = Except.error msg) := by
  unfold loginToKickbase
  rcases hres : w.loginResp with ⟨d⟩ | ⟨status, statusText, body⟩ | ⟨msg⟩
  · exact absurd hres (h d)
  · refine ⟨rfl, ?_, ?_⟩
    · intro st stx bd heq
      cases heq
      exact ⟨rfl, by simp⟩
    · intro m heq
      cases heq
  · refine ⟨rfl, ?_, ?_⟩
    · intro st stx bd heq
      cases heq
    · intro m heq
      cases heq
      rfl

/-- Witness for C5: a 401 login failure leaves a concrete state unchanged,
fails with the status-carrying error, and logs the upstream body. -/
theorem loginToKickbase_failure_atomic_witness :
    (loginToKickbase loginFailWorld validCachedState).state = validCachedState ∧
    (loginToKickbase loginFailWorld validCachedState).result =
      Except.error "Login failed: 401 Unauthorized" ∧
    ("Login error response: invalid credentials") ∈
      (loginToKickbase loginFailWorld validCachedState).log := by
  obtain ⟨h1, h2, h3⟩ :=
    loginToKickbase_failure_atomic loginFailWorld validCachedState
      (by intro d hd; simp [loginFailWorld] at hd)
  obtain ⟨h4, h5⟩ := h2 401 "Unauthorized" "invalid credentials" rfl
  exact ⟨h1, h4, h5⟩

/-! ## C6 -/

theorem ensureAuth_ok_preserves_cache (w : World) (t : AppState)
    (d : KickbaseLoginResponse) (hlogin : w.loginResp = FetchOutcome.ok d)
    (hsrvl : d.srvl = none) :
    (ensureAuthenticated w t).result = Except.ok () ∧
    (ensureAuthenticated w t).state.cachedLeagues = t.cachedLeagues := by
  unfold ensureAuthenticated loginToKickbase
  rw [hlogin]
  split
  · exact ⟨rfl, rfl⟩
  · dsimp
    rw [hsrvl]
    exact ⟨rfl, rfl⟩

theorem getKickbaseLeagues_scenarioB (w : World) (s : AppState)
    (d : KickbaseLoginResponse)
    (hcache : s.cachedLeagues = [])
    (hlogin : w.loginResp = FetchOutcome.ok d) (hsrvl : d.srvl = none)
    (hleagues : w.leaguesResp = FetchOutcome.ok (LeaguesPayload.wrapped (some []))) :
    (getKickbaseLeagues w s).result =
      Except.error "Could not fetch leagues from any known endpoint" := by
  obtain ⟨h1, h2⟩ := ensureAuth_ok_preserves_cache w s d hlogin hsrvl
  unfold getKickbaseLeagues
  rcases hE : ensureAuthenticated w s with ⟨r, st, calls, log⟩
  rw [hE] at h1 h2
  dsimp at h1 h2
  subst h1
  dsimp
  rw [h2, hcache]
  dsimp
  rw [hleagues]
  rfl

/-- C6: Scenario B.  If the login succeeds but carries no league list, the
league cache is empty, and the leagues endpoint returns the wrapped empty
sequence, then the budget resolution fails with the no-leagues error, the
budget endpoint is never called, and the run sends no notification. -/
theorem getBudget_scenarioB (w : World) (s : AppState)
    (d : KickbaseLoginResponse)
    (hcache : s.cachedLeagues = [])
    (hlogin : w.loginResp = FetchOutcome.ok d) (hsrvl : d.srvl = none)
    (hleagues : w.leaguesResp = FetchOutcome.ok (LeaguesPayload.wrapped (some []))) :
    (getKickbaseBudget w s).result =
      Except.error "Could not fetch leagues from any known endpoint" ∧
    (∀ lid, NetReq.budget lid ∉ (getKickbaseBudget w s).calls) ∧
    (runCheck w s).calls.any isNotificationCall = false := by
  obtain ⟨h1, h2⟩ := ensureAuth_ok_preserves_cache w s d hlogin hsrvl
  have hA := ensureAuthenticated_calls w s
  have hg := getKickbaseLeagues_scenarioB w (ensureAuthenticated w s).state d
    (h2.trans hcache) hlogin hsrvl hleagues
  have hGc := getKickbaseLeagues_calls w (ensureAuthenticated w s).state
  have key : (getKickbaseBudget w s).result =
      Except.error "Could not fetch leagues from any known endpoint" ∧
      ∀ c ∈ (getKickbaseBudget w s).calls,
        c = NetReq.login ∨ c = NetReq.leaguesList := by
    unfold getKickbaseBudget
    rcases hE : ensureAuthenticated w s with ⟨r, st, calls, log⟩
    rw [hE] at h1 hg hGc hA
    dsimp at h1 hg hGc hA
    subst h1
    dsimp
    rcases hG : getKickbaseLeagues w st with ⟨gr, gst, gcalls, glog⟩
    rw [hG] at hg hGc
    dsimp at hg hGc
    subst hg
    dsimp
    refine ⟨rfl, ?_⟩
    intro c hc
    rcases List.mem_append.mp hc with h | h
    · exact Or.inl (hA c h)
    · exact hGc c h
  obtain ⟨hres, hmem⟩ := key
  refine ⟨hres, ?_, ?_⟩
  · intro lid hmemb
    rcases hmem _ hmemb with h | h <;> cases h
  · obtain ⟨hc, _⟩ := runCheck_error_calls w s _ hres
    rw [hc, List.any_eq_false]
    intro c hcc
    rcases hmem c hcc with h | h <;> subst h <;> simp [isNotificationCall]

/-- A world whose login succeeds without a league list and whose leagues
endpoint returns the wrapped empty sequence. -/
def noLeagueWorld : World :=
  { now := 0
    loginResp := .ok { tkn := "tok", tknex := 100000000, srvl := none }
    leaguesResp := .ok (.wrapped (some []))
    budgetResp := fun _ => .ok { pbas := none, b := some 5, bs := none }
    sendResp := .ok "SM123" }

/-- Witness for C6: in `noLeagueWorld`, starting fresh, budget resolution
fails with the no-leagues error, no budget request appears in the trace,
and no notification is sent. -/
theorem getBudget_scenarioB_witness :
    (getKickbaseBudget noLeagueWorld initialState).result =
      Except.error "Could not fetch leagues from any known endpoint" ∧
    NetReq.budget "L1" ∉ (getKickbaseBudget noLeagueWorld initialState).calls ∧
    (runCheck noLeagueWorld initialState).calls.any isNotificationCall = false := by
  obtain ⟨ha, hb, hc⟩ := getBudget_scenarioB noLeagueWorld initialState
    { tkn := "tok", tknex := 100000000, srvl := none } rfl rfl rfl rfl
  exact ⟨ha, hb "L1", hc⟩

/-! ## C7 -/

/-- C7: notification failure is non-fatal.  Whenever the notification
channel throws, `sendWhatsappAlert` catches the error, logs it at the point
of the call, and returns normally; the whole run also completes
successfully. -/
theorem send_failure_nonfatal (w : World) (s : AppState) (budget : Int)
    (msg : String) (h : w.sendResp = FetchOutcome.netThrow msg) :
    (sendWhatsappAlert w budget).1 = Except.ok () ∧
    ("Error sending message: " ++ msg) ∈ (sendWhatsappAlert w budget).2.2 ∧
    (runCheck w s).result = Except.ok () := by
  refine ⟨sendWhatsappAlert_fst w budget, ?_, runCheck_result_ok w s⟩
  unfold sendWhatsappAlert
  rw [h]
  simp

/-- Witness for C7: in the all-throwing world a run that alerts on a
negative budget still completes successfully. -/
theorem send_failure_nonfatal_witness :
    (sendWhatsappAlert quietWorld (-1)).1 = Except.ok () ∧
    ("Error sending message: " ++ "offline") ∈ (sendWhatsappAlert quietWorld (-1)).2.2 ∧
    (runCheck quietWorld initialState).result = Except.ok () :=
  send_failure_nonfatal quietWorld initialState (-1) "offline" rfl

/-! ## C8 -/

/-- C8: alert payload formatting.  The budget is rendered as millions with
two decimal places — `-2 500 000` formats as `"-2.50M"` — and every run
whose budget resolves to `-100` issues exactly one notification-channel
call, whose template variables are slot 1 `"-0.00M"` and slot 2 `"20:30"`,
computed by the pure formatting function from the unchanged resolved
integer. -/
theorem alert_payload_formatting (w : World) (s : AppState)
    (h : (getKickbaseBudget w s).result = Except.ok (-100)) :
    formatMillions (-2500000) = "-2.50M" ∧
    (runCheck w s).calls.filter isNotificationCall =
      [NetReq.twilioSend [("1", "-0.00M"), ("2", "20:30")]] ∧
    contentVariables (-100) = [("1", formatMillions (-100)), ("2", "20:30")] := by
  refine ⟨rfl, ?_, rfl⟩
  have hns := getKickbaseBudget_filter_no_send w s
  unfold runCheck
  rcases hB : getKickbaseBudget w s with ⟨r, st, calls, log⟩
  rw [hB] at h hns
  dsimp at h hns ⊢
  subst h
  dsimp
  split
  next hlt =>
    rw [List.filter_append, hns, sendWhatsappAlert_trace]
    rfl
  next hge =>
    exact absurd (by decide : (-100 : Int) < KICKBASE_BUDGET_THRESHOLD) hge

/-- Witness for C8: a concrete run resolving the budget to `-100` produces
exactly the claimed notification trace. -/
theorem alert_payload_formatting_witness :
    formatMillions (-2500000) = "-2.50M" ∧
    (runCheck (okWorld (-100)) initialState).calls.filter isNotificationCall =
      [NetReq.twilioSend [("1", "-0.00M"), ("2", "20:30")]] ∧
    contentVariables (-100) = [("1", formatMillions (-100)), ("2", "20:30")] :=
  alert_payload_formatting (okWorld (-100)) initialState rfl

/-! ## C9 -/

/-- C9: never alert on a fatal failure.  Every run completes without
raising (the run driver catches); and whenever authentication or budget
resolution raises an error, no notification-channel call occurs in the run
trace and the error reaches the run driver, which logs it as the fatal
line.  Alerting failures, by the first conjunct, still end the run
successfully. -/
theorem fatal_failure_no_alert (w : World) (s : AppState) :
    (runCheck w s).result = Except.ok () ∧
    ∀ e, (getKickbaseBudget w s).result = Except.error e →
      (runCheck w s).calls.any isNotificationCall = false ∧
      ("Fatal error during budget check: " ++ e) ∈ (runCheck w s).log := by
  refine ⟨runCheck_result_ok w s, ?_⟩
  intro e he
  obtain ⟨hc, hl⟩ := runCheck_error_calls w s e he
  exact ⟨hc ▸ getKickbaseBudget_no_send w s, hl⟩

/-- Witness for C9: a run whose login is rejected ends successfully, sends
nothing, and logs the fatal line carrying the authentication error. -/
theorem fatal_failure_no_alert_witness :
    (runCheck loginFailWorld initialState).result = Except.ok () ∧
    (runCheck loginFailWorld initialState).calls.any isNotificationCall = false ∧
    ("Fatal error during budget check: " ++ "Login failed: 401 Unauthorized") ∈
      (runCheck loginFailWorld initialState).log := by
  obtain ⟨h1, h2⟩ := fatal_failure_no_alert loginFailWorld initialState
  obtain ⟨h3, h4⟩ := h2 "Login failed: 401 Unauthorized" rfl
  exact ⟨h1, h3, h4⟩

/-! ## C10 -/

/-- C10: whenever `getKickbaseLeagues` returns normally its sequence is
non-empty — the cache is only returned when non-empty and an endpoint
result is only returned when non-empty — so the two defensive branch
conditions of `getKickbaseBudget` (empty sequence, absent first element)
are both false on every successful league resolution. -/
theorem getKickbaseLeagues_nonempty (w : World) (s : AppState) :
    ∀ ls, (getKickbaseLeagues w s).result = Except.ok ls →
      ls ≠ [] ∧ ls.length ≠ 0 ∧ ls.head?.isSome = true := by
  intro ls hls
  suffices hne : ls ≠ [] by
    refine ⟨hne, ?_, ?_⟩
    · simpa using hne
    · rcases ls with _ | ⟨a, tl⟩
      · exact absurd rfl hne
      · rfl
  intro hnil
  subst hnil
  unfold getKickbaseLeagues at hls
  rcases hE : ensureAuthenticated w s with ⟨r, st, calls, log⟩
  rw [hE] at hls
  dsimp at hls
  rcases r with e | u
  · cases hls
  · dsimp at hls
    split at hls
    next hlen =>
      injection hls with hnil2
      rw [hnil2] at hlen
      simp at hlen
    next hlen =>
      rcases hL : w.leaguesResp with ⟨data⟩ | ⟨st1, st2, st3⟩ | ⟨msg⟩ <;>
        rw [hL] at hls <;> dsimp at hls
      · split at hls
        next hlen2 =>
          injection hls with hnil2
          rw [hnil2] at hlen2
          simp at hlen2
        next hlen2 => cases hls
      · cases hls
      · cases hls

/-- Witness for C10: a concrete successful league resolution yields the
non-empty list `[testLeague]`. -/
theorem getKickbaseLeagues_nonempty_witness :
    [testLeague] ≠ [] ∧ ([testLeague] : List KickbaseLeague).length ≠ 0 ∧
    ([testLeague] : List KickbaseLeague).head?.isSome = true :=
  getKickbaseLeagues_nonempty quietWorld validCachedState [testLeague] rfl
